import Mathlib

/-!
Verification development for the SearchShellGUI repository.

The repository contains four near-duplicate Python front-ends
(SearchGPTGUI.py, SearchGeminiGUI.py, SearchShellGUI.py, WebAssistGUI.py)
implementing a search-then-ask pipeline.  This file gives a shallow
embedding of the pipeline pieces the specification talks about:

* Python string helpers (strip, lower, slicing, join, split, substring
  containment) modelled over `List Char`, matching Python semantics.
* An HTML node tree (mutual `Node`/`NodeList`) standing for the parsed
  BeautifulSoup document, with the BeautifulSoup operations the code
  uses: `decompose` of a tag blacklist (`removeTagsN`), document-order
  `find` (`findN`), `get_text(separator, strip=True)` (`getText`), and
  `Tag.string` (`nodeString`).
* The content extractor `extract_content` (SearchGPTGUI.py lines 54-80,
  identical in SearchGeminiGUI.py and SearchShellGUI.py) and its
  WebAssistGUI.py variant `extract_content_wa` (lines 49-72), which
  removes a shorter blacklist.
* The title helper `get_page_title` (SearchGPTGUI.py lines 39-52).
* The context builder `generate_context` (SearchGPTGUI.py lines 82-112)
  together with the trace of fetch/sleep events its loop performs.
* The answer generator decision `query_openai_async` (SearchGPTGUI.py
  lines 114-147), modelled as either a direct return or a backend call
  carrying the grounding prompt.
* The chat trigger heuristic (WebAssistGUI.py lines 83-84/139-140).
* Chat history handling: `collections.deque` with `maxlen`
  (SearchShellGUI.py line 197) and the unbounded WebAssistGUI message
  list with `_build_chat_history` (WebAssistGUI.py lines 112-125).
* Config loading and wrapper construction (SearchShellGUI.py lines
  11-22 and 120-124).

Network effects are modelled by value: a fetch outcome is either a
parsed document or a failure, and the extraction performed inside the
context-builder loop is an oracle `String → String` from URL to
extracted content.
-/

/-! ## Python string primitives -/

/-- Whitespace set of Python `str.strip()`. -/
def isPyWS (c : Char) : Bool :=
  c = ' ' || c = '\t' || c = '\n' || c = '\x0d' || c = '\x0b' || c = '\x0c'

/-- Python `s.strip()`. -/
def pyStrip (s : String) : String :=
  ⟨((s.data.dropWhile isPyWS).reverse.dropWhile isPyWS).reverse⟩

/-- Python `s.lower()` (ASCII letters, which is all the code relies on). -/
def pyLower (s : String) : String :=
  ⟨s.data.map Char.toLower⟩

/-- Python slicing `s[:n]`. -/
def pySlice (s : String) (n : Nat) : String :=
  ⟨s.data.take n⟩

/-- Char-list version of `List.isPrefixOf`. -/
def leadMatch : List Char → List Char → Bool
  | [], _ => true
  | _ :: _, [] => false
  | a :: as, b :: bs => a = b && leadMatch as bs

/-- Containment of `needle` in `hay` at any position. -/
def infixMatch (needle : List Char) : List Char → Bool
  | [] => needle.isEmpty
  | c :: rest => leadMatch needle (c :: rest) || infixMatch needle rest

/-- Python substring test `needle in hay`. -/
def pyContains (hay needle : String) : Bool :=
  infixMatch needle.data hay.data

/-- Python `sep.join(parts)`. -/
def pyJoin (sep : String) : List String → String
  | [] => ""
  | [s] => s
  | s :: rest => s ++ sep ++ pyJoin sep rest

/-- Python `s.split(sep)` for a single-character separator, on char lists:
splits at every occurrence, keeping empty pieces. -/
def splitChar (sep : Char) : List Char → List (List Char)
  | [] => [[]]
  | c :: cs =>
    match splitChar sep cs with
    | [] => [[]]
    | g :: gs => if c = sep then [] :: g :: gs else (c :: g) :: gs

/-- Python `text.split` at newline characters. -/
def pySplitNL (s : String) : List String :=
  (splitChar '\n' s.data).map (fun l => ⟨l⟩)

/-- The per-line cleanup shared by every extractor variant:
each line of `text.split` at newlines is stripped, lines that are empty
after stripping are dropped, and the rest are rejoined with single
newlines. -/
def cleanLines (text : String) : String :=
  pyJoin "\n" (((pySplitNL text).map pyStrip).filter (fun l => l ≠ ""))

/-! ## HTML document model -/

mutual
/-- A parsed HTML node: a text node, or an element with a tag name, the
tokens of its class attribute, and its children. -/
inductive Node where
  | text (s : String)
  | elem (tag : String) (classes : List String) (children : NodeList)
  deriving DecidableEq
/-- Children of an element, as a mutual inductive so that all functions
below are structural (and hence kernel-reducible on concrete documents). -/
inductive NodeList where
  | nil
  | cons (n : Node) (ns : NodeList)
  deriving DecidableEq
end

/-- Build a `NodeList` from a `List Node` literal. -/
def ofList : List Node → NodeList
  | [] => .nil
  | n :: ns => .cons n (ofList ns)

mutual
/-- BeautifulSoup `for element in soup(blacklist): element.decompose()`:
every element whose tag is in the blacklist is removed together with its
whole subtree; `none` when the root itself is blacklisted. -/
def removeTagsN (bl : List String) : Node → Option Node
  | .text s => some (.text s)
  | .elem t c ch =>
      if bl.contains t then none else some (.elem t c (removeTagsL bl ch))
/-- List version of `removeTagsN`. -/
def removeTagsL (bl : List String) : NodeList → NodeList
  | .nil => .nil
  | .cons n ns =>
      match removeTagsN bl n with
      | some m => .cons m (removeTagsL bl ns)
      | none => removeTagsL bl ns
end

mutual
/-- BeautifulSoup `find` with an element predicate on tag and classes:
first match in document order (the node itself, then children left to
right, depth first). -/
def findN (p : String → List String → Bool) : Node → Option Node
  | .text _ => none
  | .elem t c ch => if p t c then some (.elem t c ch) else findL p ch
/-- List version of `findN`. -/
def findL (p : String → List String → Bool) : NodeList → Option Node
  | .nil => none
  | .cons n ns =>
      match findN p n with
      | some r => some r
      | none => findL p ns
end

/-- BeautifulSoup `soup.find(tag)`. -/
def findTag (tag : String) (n : Node) : Option Node :=
  findN (fun t _ => t = tag) n

/-- The class values of the div lookup in every extractor variant. -/
def divClassTargets : List String := ["content", "main", "article"]

/-- BeautifulSoup `soup.find` for a div whose class attribute matches the
list [content, main, article]: a div matches when any token of its class
attribute is one of the listed values. -/
def findContentDiv (n : Node) : Option Node :=
  findN (fun t cs => t = "div" && cs.any (fun c => divClassTargets.contains c)) n

mutual
/-- All text-node strings of a subtree, in document order. -/
def textsN : Node → List String
  | .text s => [s]
  | .elem _ _ ch => textsL ch
/-- List version of `textsN`. -/
def textsL : NodeList → List String
  | .nil => []
  | .cons n ns => textsN n ++ textsL ns
end

/-- BeautifulSoup `get_text` with newline separator and strip: every
text string stripped, empty ones dropped, the rest joined by the
separator. -/
def getText (n : Node) : String :=
  pyJoin "\n" (((textsN n).map pyStrip).filter (fun l => l ≠ ""))

mutual
/-- BeautifulSoup `Tag.string`: the string of the single child when the
element has exactly one child, `None` otherwise. -/
def nodeString : Node → Option String
  | .text s => some s
  | .elem _ _ ch => singleChildString ch
/-- Helper of `nodeString` for the single-child case. -/
def singleChildString : NodeList → Option String
  | .cons c .nil => nodeString c
  | _ => none
end

/-! ## Fetching and extraction -/

/-- Outcome of `requests.get` plus `raise_for_status` plus parsing: a
parsed document, or any failure (timeout, network error, non-2xx). -/
inductive FetchOutcome where
  | success (doc : Node)
  | failure
  deriving DecidableEq

/-- Blacklist of SearchGPTGUI.py line 65 (same in SearchGeminiGUI.py and
SearchShellGUI.py). -/
def noiseTags : List String :=
  ["script", "style", "nav", "header", "footer", "iframe", "noscript"]

/-- Blacklist of WebAssistGUI.py line 59 — note iframe and noscript are
absent there. -/
def noiseTagsWA : List String :=
  ["script", "style", "nav", "header", "footer"]

/-- SearchGPTGUI.py line 68: find main, `or` find article, `or` find a
div with one of the content classes.  bs4 Tag objects are always truthy,
so `or` picks the first lookup that is not `None`. -/
def primaryContent (soup : Node) : Option Node :=
  match findTag "main" soup with
  | some n => some n
  | none =>
    match findTag "article" soup with
    | some n => some n
    | none => findContentDiv soup

/-- Body of the `try` in `extract_content` after a successful fetch,
parameterised by the noise-tag blacklist: decompose the blacklist, select
the primary content node (whole soup when none matches), `get_text`,
per-line cleanup, truncate to 2000 characters.  The `none` branch covers
only a document whose root element itself is blacklisted. -/
def extractDoc (bl : List String) (doc : Node) : String :=
  match removeTagsN bl doc with
  | none => ""
  | some soup =>
    let text :=
      match primaryContent soup with
      | some n => getText n
      | none => getText soup
    pySlice (cleanLines text) 2000

/-- `OpenAIWebWrapper.extract_content` (SearchGPTGUI.py lines 54-80):
empty string on any fetch failure, otherwise `extractDoc` with the
seven-tag blacklist. -/
def extract_content (f : FetchOutcome) : String :=
  match f with
  | .failure => ""
  | .success doc => extractDoc noiseTags doc

/-- `BaseChatbot.extract_content` (WebAssistGUI.py lines 49-72): same
pipeline, but the blacklist omits iframe and noscript. -/
def extract_content_wa (f : FetchOutcome) : String :=
  match f with
  | .failure => ""
  | .success doc => extractDoc noiseTagsWA doc

/-- `OpenAIWebWrapper._get_page_title` (SearchGPTGUI.py lines 39-52):
on fetch failure return the URL unchanged; on success
`title = soup.title.string if soup.title else url` then `title.strip()`.
When the title element exists but `Tag.string` is `None`, the
`None.strip()` raise is caught by the same handler and the URL is
returned unchanged. -/
def get_page_title (f : FetchOutcome) (url : String) : String :=
  match f with
  | .failure => url
  | .success doc =>
    match findTag "title" doc with
    | some t =>
      match nodeString t with
      | some s => pyStrip s
      | none => url
    | none => pyStrip url

/-! ## Context builder -/

/-- One result of `search_web`: the fields `generate_context` reads. -/
structure SearchResult where
  href : String
  title : String
  deriving DecidableEq

/-- An observable step of the `generate_context` loop: a content fetch
for a URL, or the `time.sleep(1)` throttle. -/
inductive FetchEvent where
  | fetch (url : String)
  | sleep
  deriving DecidableEq

/-- The separator written at the end of every context entry:
the equals-sign character repeated 50 times. -/
def sepLine : String := ⟨List.replicate 50 '='⟩

/-- The f-string blocks of SearchGPTGUI.py lines 95-107: with content,
`Source`/`URL`/blank/`Content:`/content/separator; without content (the
Python truthiness test `if content:`), only `Source`/`URL`/separator. -/
def context_entry (title url content : String) : String :=
  if content ≠ "" then
    "Source: " ++ title ++ "\n" ++ "URL: " ++ url ++ "\n\n" ++
      "Content:\n" ++ content ++ "\n" ++ sepLine ++ "\n"
  else
    "Source: " ++ title ++ "\n" ++ "URL: " ++ url ++ "\n" ++ sepLine ++ "\n"

/-- The loop of `generate_context` (SearchGPTGUI.py lines 87-110) over
the search results, with per-URL extraction abstracted to the oracle
`fetchContent`: returns the accumulated entry list and the trace of
fetch/sleep events, in order.  Every iteration fetches, appends one
entry, then sleeps. -/
def generate_context_loop (fetchContent : String → String) :
    List SearchResult → List String × List FetchEvent
  | [] => ([], [])
  | r :: rs =>
    let content := fetchContent r.href
    let rest := generate_context_loop fetchContent rs
    (context_entry r.title r.href content :: rest.1,
      .fetch r.href :: .sleep :: rest.2)

/-- `OpenAIWebWrapper.generate_context` result string:
`"\n".join(context)`. -/
def generate_context (fetchContent : String → String)
    (results : List SearchResult) : String :=
  pyJoin "\n" (generate_context_loop fetchContent results).1

/-- The event trace of the same loop. -/
def generate_context_events (fetchContent : String → String)
    (results : List SearchResult) : List FetchEvent :=
  (generate_context_loop fetchContent results).2

/-- Number of sleep events in a trace. -/
def sleepCount : List FetchEvent → Nat
  | [] => 0
  | .sleep :: rest => sleepCount rest + 1
  | .fetch _ :: rest => sleepCount rest

/-! ## Answer generator -/

/-- What `query_openai_async` does with a prompt and a context: return a
string directly without touching the backend, or issue the backend call
with the fully assembled grounding prompt. -/
inductive LLMAction where
  | direct (answer : String)
  | callBackend (fullPrompt : String)
  deriving DecidableEq

/-- The no-context notice of SearchGPTGUI.py line 118. -/
def no_context_msg : String :=
  "No context was found from web searches. The model will provide a general response without current information."

/-- The grounding prompt of SearchGPTGUI.py lines 120-129 (the trailing
backslash line continuation keeps the indentation spaces of the next
source line inside the string). -/
def full_prompt_gpt (prompt context : String) : String :=
  "Context from web searches:\n\n" ++ context ++ "\n\n" ++
  "Question: " ++ prompt ++ "\n\n" ++
  "Please provide a comprehensive answer based on the context above. " ++
  "Please ensure the answer is detailed with points wherever necessary. " ++
  "Use emojis wherever needed to make your answers interesting" ++
  "Please ensure that the answer is properly formatted for reading. " ++
  "If the context doesn\x27t contain relevant information, please state so clearly, and instead                     provide whatever info you have on the topic."

/-- `OpenAIWebWrapper.query_openai_async` (SearchGPTGUI.py lines
114-147), up to the backend call: `if not context.strip()` return the
notice, else call the backend with the grounding prompt. -/
def query_openai_async (prompt context : String) : LLMAction :=
  if pyStrip context = "" then .direct no_context_msg
  else .callBackend (full_prompt_gpt prompt context)

/-! ## Chat trigger heuristic -/

/-- Trigger phrases of WebAssistGUI.py line 84 (and line 140). -/
def trigger_phrases : List String :=
  ["search", "look up", "find out", "what is", "who is"]

/-- WebAssistGUI.py lines 83-84: search is run when the flag is set or
any trigger phrase occurs as a substring of the lowercased input. -/
def should_trigger_search (should_search : Bool) (user_input : String) : Bool :=
  should_search ||
    trigger_phrases.any (fun t => pyContains (pyLower user_input) t)

/-! ## Chat history -/

/-- `collections.deque(maxlen)` append: drop from the left whatever
exceeds the capacity. -/
def dequeAppend {α : Type} (maxlen : Nat) (h : List α) (x : α) : List α :=
  let l := h ++ [x]
  l.drop (l.length - maxlen)

/-- The system message of `OpenAIChatbot._build_chat_history`
(WebAssistGUI.py lines 114-120); the four string literals are
concatenated without separators. -/
def system_msg : String :=
  "You are a helpful AI assistant with access to web search capabilities. " ++
  "You can search the internet when needed to provide up-to-date information. " ++
  "Always maintain context of the conversation and provide accurate, relevant responses." ++
  "ALWAYS incorporate emojis wherever possible and relevant to make your answers interesting.\n\n"

/-- `OpenAIChatbot._build_chat_history` (WebAssistGUI.py lines 112-125):
the system message followed by every `(role, content)` pair of the
history it is given — the whole history, with no windowing. -/
def build_chat_history (hist : List (String × String)) : List (String × String) :=
  ("system", system_msg) :: hist

/-! ## Config loading and wrapper construction (SearchShellGUI.py) -/

/-- The API-key table of SearchShellGPT.toml, one optional key per
provider section the code reads. -/
structure TomlConfig where
  openaiKey : Option String
  geminiKey : Option String
  deriving DecidableEq

/-- `OpenAIWebWrapper._load_api_key` (SearchShellGUI.py lines 16-22):
the api_key entry of the provider section, with any lookup failure converted to a
`RuntimeError` carrying the provider name. -/
def load_api_key (cfg : TomlConfig) (provider : String) : Except String String :=
  match (if provider = "openai" then cfg.openaiKey
         else if provider = "gemini" then cfg.geminiKey
         else none) with
  | some k => .ok k
  | none => .error ("Failed to load API key from config.toml for " ++ provider)

/-- `OpenAIWebWrapper.__init__` (SearchShellGUI.py lines 12-14): stores
the model name and the openai key; construction fails when the key is
missing. -/
def openai_wrapper_init (cfg : TomlConfig) (modelName : String) :
    Except String (String × String) :=
  match load_api_key cfg "openai" with
  | .error e => .error e
  | .ok k => .ok (modelName, k)

/-- The endpoint constant of SearchShellGUI.py line 124. -/
def gemini_api_url : String :=
  "https://generativelanguage.googleapis.com/v1beta/models/gemini-1.5-flash-8b:generateContent"

/-- The state a constructed `GeminiWebWrapper` holds. -/
structure GeminiWrapper where
  modelName : String
  apiKey : String
  apiUrl : String
  deriving DecidableEq

/-- `GeminiWebWrapper.__init__` (SearchShellGUI.py lines 120-124): first
`super().__init__(model_name)` — which loads the openai key — then the
stored key is overwritten with the gemini key and the endpoint is set. -/
def gemini_wrapper_init (cfg : TomlConfig) (modelName : String) :
    Except String GeminiWrapper :=
  match openai_wrapper_init cfg modelName with
  | .error e => .error e
  | .ok st =>
    match load_api_key cfg "gemini" with
    | .error e => .error e
    | .ok g => .ok ⟨st.1, g, gemini_api_url⟩

/-! ## Concrete documents used by counterexamples and witnesses -/

/-- A document whose only main element sits inside a nav element: the
cleanup pass deletes the nav (and the main with it) before the primary
content node is selected. -/
def c1doc : Node :=
  .elem "html" [] (ofList [
    .elem "body" [] (ofList [
      .elem "nav" [] (ofList [.elem "main" [] (ofList [.text "A"])]),
      .elem "p" [] (ofList [.text "B"])])])

/-- The main element occurring inside `c1doc`. -/
def c1main : Node := .elem "main" [] (ofList [.text "A"])

/-- A document with a main element next to nav and footer siblings. -/
def c1wdoc : Node :=
  .elem "html" [] (ofList [
    .elem "body" [] (ofList [
      .elem "nav" [] (ofList [.text "menu main"]),
      .elem "main" [] (ofList [.text "Article text"]),
      .elem "footer" [] (ofList [.text "foot"])])])

/-- The cleanup result of `c1wdoc` under the seven-tag blacklist. -/
def c1wclean : Node :=
  .elem "html" [] (ofList [
    .elem "body" [] (ofList [
      .elem "main" [] (ofList [.text "Article text"])])])

/-- A successfully fetched document with no title element. -/
def noTitleDoc : Node :=
  .elem "html" [] (ofList [.elem "body" [] (ofList [])])

/-- A document whose main element holds only a noscript element. -/
def c6doc : Node :=
  .elem "html" [] (ofList [
    .elem "body" [] (ofList [
      .elem "main" [] (ofList [
        .elem "noscript" [] (ofList [.text "hidden"])])])])

/-- The cleanup result of `c6doc` under the seven-tag blacklist. -/
def c6clean : Node :=
  .elem "html" [] (ofList [
    .elem "body" [] (ofList [
      .elem "main" [] (ofList [])])])

/-- Ten conversation turns. -/
def tenTurns : List (String × String) := List.replicate 10 ("user", "m")

/-- Eleven conversation turns. -/
def elevenTurns : List (String × String) := List.replicate 11 ("user", "hi")

/-! ## Specification-side definitions

These two definitions follow the words of the specification (with the
amendments the counterexamples force) rather than the code; the claim
theorems compare the code-side functions against them. -/

/-- The primary-content selection as the specification words it: try the
first main element, then the first article element, then the first div
whose class attribute includes one of content, main, article; when none
matches fall back to the whole (cleaned) document. -/
def spec_primary_node (soup : Node) : Node :=
  match findTag "main" soup with
  | some n => n
  | none =>
    match findTag "article" soup with
    | some n => n
    | none =>
      match findContentDiv soup with
      | some n => n
      | none => soup

/-- A context entry as the specification words it: a labeled block with
the source title, the URL, and — when extraction produced content — a
Content section, always closed by the fixed-width separator line; when
extraction returned the empty string the block carries only the title,
URL and separator, with no content section. -/
def spec_entry_block (title url content : String) : String :=
  if content ≠ "" then
    "Source: " ++ title ++ "\n" ++ "URL: " ++ url ++ "\n\n" ++
      "Content:\n" ++ content ++ "\n" ++ sepLine ++ "\n"
  else
    "Source: " ++ title ++ "\n" ++ "URL: " ++ url ++ "\n" ++ sepLine ++ "\n"

mutual
/-- Whether some element of the tree carries a blacklisted tag. -/
def hasBlN (bl : List String) : Node → Bool
  | .text _ => false
  | .elem t _ ch => bl.contains t || hasBlL bl ch
/-- List version of `hasBlN`. -/
def hasBlL (bl : List String) : NodeList → Bool
  | .nil => false
  | .cons n ns => hasBlN bl n || hasBlL bl ns
end

/-! ## Helper lemmas -/

/-- Closed form of the context-builder loop: entries are the blocks of
the results in order, and the event trace fetches then sleeps once per
result. -/
theorem generate_context_loop_eq (f : String → String)
    (rs : List SearchResult) :
    generate_context_loop f rs =
      (rs.map (fun r => context_entry r.title r.href (f r.href)),
       rs.flatMap (fun r => [.fetch r.href, .sleep])) := by
  induction rs with
  | nil => rfl
  | cons r rest ih => simp [generate_context_loop, ih]

/-- Sleep count of the fetch-sleep trace of a result list. -/
theorem sleepCount_trace (rs : List SearchResult) :
    sleepCount (rs.flatMap (fun r => [.fetch r.href, .sleep])) = rs.length := by
  induction rs with
  | nil => rfl
  | cons r rest ih =>
    rw [List.flatMap_cons]
    show sleepCount
        (rest.flatMap fun r => [FetchEvent.fetch r.href, FetchEvent.sleep]) + 1 =
      rest.length + 1
    rw [ih]

/-- A Python slice to `n` characters has length at most `n`. -/
theorem pySlice_length_le (s : String) (n : Nat) :
    (pySlice s n).length ≤ n := by
  show (s.data.take n).length ≤ n
  exact List.length_take_le n s.data

/-- The per-document extraction never exceeds 2000 characters. -/
theorem extractDoc_length_le (bl : List String) (doc : Node) :
    (extractDoc bl doc).length ≤ 2000 := by
  unfold extractDoc
  cases removeTagsN bl doc with
  | none => simp [String.length]
  | some soup => exact pySlice_length_le _ _

mutual
/-- After cleanup no blacklisted element remains (node form). -/
theorem removeTagsN_clean (bl : List String) :
    ∀ n m, removeTagsN bl n = some m → hasBlN bl m = false
  | .text s, m, h => by
    simp [removeTagsN] at h
    subst h
    rfl
  | .elem t c ch, m, h => by
    simp [removeTagsN] at h
    obtain ⟨hbl, hm⟩ := h
    subst hm
    simp [hasBlN, hbl, removeTagsL_clean bl ch]
/-- After cleanup no blacklisted element remains (list form). -/
theorem removeTagsL_clean (bl : List String) :
    ∀ ns, hasBlL bl (removeTagsL bl ns) = false
  | .nil => rfl
  | .cons n ns => by
    cases hr : removeTagsN bl n with
    | none => simp [removeTagsL, hr, removeTagsL_clean bl ns]
    | some m =>
      simp [removeTagsL, hr, hasBlL, removeTagsN_clean bl n m hr,
        removeTagsL_clean bl ns]
end

/-! ## Claim theorems -/

/-- C1, counterexample: `c1doc` contains a main element (inside a nav),
yet the extracted text "B" is not drawn from that main subtree — the
cleanup pass deletes the nav together with the nested main before
selection, and extraction falls back to the whole document.  This
refutes the claim that for every document containing a main element the
extracted text is restricted to that element. -/
theorem extract_main_in_nav_counterexample :
    findTag "main" c1doc = some c1main ∧
    extract_content (.success c1doc) = "B" ∧
    pyContains (getText c1main) "B" = false :=
  ⟨rfl, rfl, rfl⟩

/-- C1, amended: on the cleaned document (after noise-element removal),
the extractor selects the primary content node by trying, in order, the
first main element, then the first article element, then the first div
whose class attribute includes one of content, main, article, falling
back to the whole cleaned document; in particular whenever the cleaned
document still contains a main element, the first such element is
selected and the extracted text is its processed subtree text. -/
theorem extract_primary_selection (doc cleaned : Node)
    (h : removeTagsN noiseTags doc = some cleaned) :
    extract_content (.success doc) =
      pySlice (cleanLines (getText (spec_primary_node cleaned))) 2000 ∧
    (∀ m, findTag "main" cleaned = some m → spec_primary_node cleaned = m) := by
  constructor
  · cases h1 : findTag "main" cleaned <;>
      cases h2 : findTag "article" cleaned <;>
        cases h3 : findContentDiv cleaned <;>
          simp [extract_content, extractDoc, h, primaryContent,
            spec_primary_node, h1, h2, h3]
  · intro m hm
    simp [spec_primary_node, hm]

/-- C1, witness: a document whose main element survives cleanup next to
nav and footer siblings; the theorem applies with the concrete cleanup
result, and the extracted text is exactly the main-subtree text. -/
theorem extract_primary_selection_witness :
    removeTagsN noiseTags c1wdoc = some c1wclean ∧
    (extract_content (.success c1wdoc) =
        pySlice (cleanLines (getText (spec_primary_node c1wclean))) 2000 ∧
      (∀ m, findTag "main" c1wclean = some m → spec_primary_node c1wclean = m)) ∧
    extract_content (.success c1wdoc) = "Article text" :=
  ⟨rfl, extract_primary_selection c1wdoc c1wclean rfl, rfl⟩

/-- C2, counterexample: for a successfully fetched document with no
title element, the title helper returns the URL stripped of surrounding
whitespace, not the original URL string unchanged. -/
theorem title_url_stripped_counterexample :
    get_page_title (.success noTitleDoc) " u" = "u" ∧ (" u" : String) ≠ "u" :=
  ⟨rfl, by decide⟩

/-- C2, amended: on any fetch failure the title helper returns the URL
unchanged and the content extractor returns the empty string (neither
raises — both are total); on a successfully fetched document with no
title element the title helper returns the URL stripped of leading and
trailing whitespace, which is the URL itself whenever it has none. -/
theorem title_and_extract_fallbacks :
    (∀ url, get_page_title .failure url = url) ∧
    extract_content .failure = "" ∧
    (∀ url doc, findTag "title" doc = none →
      get_page_title (.success doc) url = pyStrip url) := by
  refine ⟨fun url => rfl, rfl, fun url doc h => ?_⟩
  simp [get_page_title, h]

/-- C2, witness: the fallbacks evaluated at a concrete URL and a
concrete title-free document. -/
theorem title_and_extract_fallbacks_witness :
    get_page_title .failure "https://a.example" = "https://a.example" ∧
    extract_content .failure = "" ∧
    get_page_title (.success noTitleDoc) "https://a.example" =
      pyStrip "https://a.example" :=
  ⟨title_and_extract_fallbacks.1 _, title_and_extract_fallbacks.2.1,
    title_and_extract_fallbacks.2.2 "https://a.example" noTitleDoc rfl⟩

/-- C3, confirmed: for every fetch outcome (hence every input document
of any size) both content-extractor variants return at most 2000
characters — the truncation is a hard character cap on the cleaned
text. -/
theorem extract_length_le_2000 (f : FetchOutcome) :
    (extract_content f).length ≤ 2000 ∧
    (extract_content_wa f).length ≤ 2000 := by
  cases f with
  | failure => exact ⟨by decide, by decide⟩
  | success doc => exact ⟨extractDoc_length_le _ _, extractDoc_length_le _ _⟩

/-- C4, confirmed: when the search provider returns no results the
context builder returns the empty context document, and for a blank
(whitespace-only) context the answer generator returns the explicit
no-context notice directly — it never issues the backend call that
carries the grounding instruction. -/
theorem empty_search_blank_context :
    (∀ fc : String → String, generate_context fc [] = "") ∧
    (∀ prompt context, pyStrip context = "" →
      query_openai_async prompt context = .direct no_context_msg ∧
      pyContains no_context_msg "No context" = true ∧
      ∀ fullPrompt, query_openai_async prompt context ≠ .callBackend fullPrompt) := by
  refine ⟨fun fc => rfl, fun prompt context h => ?_⟩
  have hq : query_openai_async prompt context = .direct no_context_msg := by
    simp [query_openai_async, h]
  exact ⟨hq, by decide, fun fullPrompt => by rw [hq]; simp⟩

/-- C4, witness: the empty result list and a concrete whitespace-only
context. -/
theorem empty_search_blank_context_witness :
    generate_context (fun _ => "") [] = "" ∧
    query_openai_async "capital of France" "   " = .direct no_context_msg :=
  ⟨empty_search_blank_context.1 _,
    (empty_search_blank_context.2 "capital of France" "   " rfl).1⟩

/-- C5, counterexample: when extraction returns the empty string the
produced block holds only the title, the URL and the separator — it
contains no "no content extracted" indicator (checked case-insensitively
for the phrase "no content"), refuting the claim that an explicit
indicator replaces missing content. -/
theorem context_entry_no_indicator_counterexample :
    generate_context (fun _ => "") [⟨"https://a.example", "A title"⟩] =
      "Source: A title\n" ++ "URL: https://a.example\n" ++ sepLine ++ "\n" ∧
    pyContains
      (pyLower (generate_context (fun _ => "") [⟨"https://a.example", "A title"⟩]))
      "no content" = false :=
  ⟨rfl, by decide⟩

/-- C5, amended: every context entry is a labeled block with the source
title, the URL, a Content section when extraction produced content —
and no content section at all (no indicator) when it did not — closed
by the fixed-width 50-character separator line; the blocks appear in
search-result order joined by single newlines (each block already ends
with a newline, so consecutive blocks are separated by a blank line). -/
theorem generate_context_format (f : String → String) (rs : List SearchResult) :
    generate_context f rs =
      pyJoin "\n" (rs.map (fun r => spec_entry_block r.title r.href (f r.href))) ∧
    sepLine.length = 50 := by
  constructor
  · unfold generate_context
    rw [generate_context_loop_eq]
    rfl
  · rfl

/-- C6, counterexample: the WebAssistGUI extractor variant removes only
script, style, nav, header and footer, so the text of a noscript element
survives into its output, refuting the claim that all seven noise
element kinds are removed by the content extractor; the other variants
do remove it. -/
theorem webassist_noscript_counterexample :
    extract_content_wa (.success c6doc) = "hidden" ∧
    extract_content (.success c6doc) = "" :=
  ⟨rfl, rfl⟩

/-- C6, amended: each extractor variant removes every element of its own
blacklist entirely before text extraction — after the cleanup pass no
element with a blacklisted tag remains anywhere in the tree, so the
extracted text contains no text from those elements; the blacklist is
script/style/nav/header/footer/iframe/noscript for the
SearchGPTGUI/SearchGeminiGUI/SearchShellGUI variant and only
script/style/nav/header/footer for the WebAssistGUI variant. -/
theorem cleanup_removes_blacklist (bl : List String) (doc cleaned : Node)
    (h : removeTagsN bl doc = some cleaned) :
    hasBlN bl cleaned = false :=
  removeTagsN_clean bl doc cleaned h

/-- C6, witness: the seven-tag cleanup of `c6doc` evaluated concretely
contains no blacklisted element. -/
theorem cleanup_removes_blacklist_witness :
    hasBlN noiseTags c6clean = false :=
  cleanup_removes_blacklist noiseTags c6doc c6clean rfl

/-- C7, counterexample: for a single search result the loop performs one
fetch followed by one sleep — the throttle fires after the last fetch,
and the trace holds 1 sleep rather than the claimed n-1 = 0. -/
theorem sleep_after_last_fetch_counterexample :
    generate_context_events (fun _ => "x") [⟨"https://a.example", "t"⟩] =
      [.fetch "https://a.example", .sleep] ∧
    sleepCount
      (generate_context_events (fun _ => "x") [⟨"https://a.example", "t"⟩]) = 1 :=
  ⟨rfl, rfl⟩

/-- C7, amended: the context-builder loop emits, for each search result
in order, a fetch followed by a one-second sleep: exactly n sleeps for n
fetches, one after every fetch (hence between every pair of successive
fetches) including after the last, and never before the first. -/
theorem fetch_delay_trace (f : String → String) (rs : List SearchResult) :
    generate_context_events f rs =
      rs.flatMap (fun r => [.fetch r.href, .sleep]) ∧
    sleepCount (generate_context_events f rs) = rs.length := by
  have h : generate_context_events f rs =
      rs.flatMap (fun r => [.fetch r.href, .sleep]) := by
    unfold generate_context_events
    rw [generate_context_loop_eq]
  exact ⟨h, by rw [h]; exact sleepCount_trace rs⟩

/-- C8, counterexample: the input "whatisoever" does not trigger search
when the flag is disabled — the trigger phrase "what is" contains a
space and is not a substring of "whatisoever" — refuting the claim that
such an input also triggers. -/
theorem whatisoever_no_trigger_counterexample :
    should_trigger_search false "whatisoever" = false := rfl

/-- C8, amended: web search is performed exactly when the search-enabled
flag is set or the lowercased message contains one of the five trigger
phrases as a plain substring; "who is the president" triggers with the
flag disabled, but "whatisoever" alone does not, since the phrase
"what is" includes a space. -/
theorem trigger_condition :
    (∀ (b : Bool) (s : String),
      should_trigger_search b s = true ↔
        b = true ∨ ∃ t ∈ trigger_phrases, pyContains (pyLower s) t = true) ∧
    should_trigger_search false "who is the president" = true := by
  refine ⟨fun b s => ?_, rfl⟩
  simp [should_trigger_search, List.any_eq_true]

/-- C9, counterexample: the chat variant keeps its message history in a
plain unbounded list and hands the whole of it to the API message
builder — after 11 turns all 11 are passed (plus the system message),
refuting the claim that only a 10-turn window ever reaches the answer
generator. -/
theorem full_history_passed_counterexample :
    elevenTurns.length = 11 ∧
    build_chat_history elevenTurns = ("system", system_msg) :: elevenTurns :=
  ⟨rfl, rfl⟩

/-- C9, amended: the provider-switching variant stores its display
history in a deque of capacity 10 with FIFO eviction — appending to a
full deque drops the oldest turn and keeps the 10 most recent in their
original order — but that deque is never passed to the answer
generator; the chat variant passes its full unbounded history (plus the
system message) to the generator. -/
theorem history_window :
    (∀ (h : List (String × String)) (x : String × String), h.length = 10 →
      dequeAppend 10 h x = h.drop 1 ++ [x] ∧
      (dequeAppend 10 h x).length = 10) ∧
    (∀ hist, (build_chat_history hist).length = hist.length + 1) := by
  constructor
  · intro h x hlen
    have hd : dequeAppend 10 h x = h.drop 1 ++ [x] := by
      show (h ++ [x]).drop ((h ++ [x]).length - 10) = h.drop 1 ++ [x]
      have hone : (h ++ [x]).length - 10 = 1 := by
        simp [hlen]
      rw [hone, List.drop_append_of_le_length (by omega)]
    refine ⟨hd, ?_⟩
    rw [hd]
    simp [List.length_drop, hlen]
  · intro hist
    rfl

/-- C9, witness: a concrete full deque of 10 turns and the concrete
unbounded history builder. -/
theorem history_window_witness :
    (dequeAppend 10 tenTurns ("assistant", "r") =
        tenTurns.drop 1 ++ [("assistant", "r")] ∧
      (dequeAppend 10 tenTurns ("assistant", "r")).length = 10) ∧
    (build_chat_history tenTurns).length = tenTurns.length + 1 :=
  ⟨history_window.1 tenTurns _ rfl, history_window.2 tenTurns⟩

/-- C10, confirmed: constructing the Gemini wrapper first runs the
parent constructor, which loads the openai key, so construction fails
with the openai RuntimeError whenever the config lacks an openai
api_key entry — even though, when both keys exist, the constructed
wrapper holds only the gemini key. -/
theorem gemini_init_requires_openai_key :
    (∀ (cfg : TomlConfig) (modelName : String), cfg.openaiKey = none →
      gemini_wrapper_init cfg modelName =
        .error "Failed to load API key from config.toml for openai") ∧
    (∀ (ko kg modelName : String),
      gemini_wrapper_init ⟨some ko, some kg⟩ modelName =
        .ok ⟨modelName, kg, gemini_api_url⟩) := by
  constructor
  · intro cfg m h
    obtain ⟨o, g⟩ := cfg
    cases h
    rfl
  · intro ko kg m
    rfl

/-- C10, witness: a config holding only a gemini key makes construction
fail with the openai error; a config with both keys constructs a wrapper
holding the gemini key. -/
theorem gemini_init_requires_openai_key_witness :
    gemini_wrapper_init ⟨none, some "gkey"⟩ "gemini-1.5-flash-8b" =
      .error "Failed to load API key from config.toml for openai" ∧
    gemini_wrapper_init ⟨some "okey", some "gkey"⟩ "gemini-1.5-flash-8b" =
      .ok ⟨"gemini-1.5-flash-8b", "gkey", gemini_api_url⟩ :=
  ⟨gemini_init_requires_openai_key.1 _ _ rfl,
    gemini_init_requires_openai_key.2 "okey" "gkey" _⟩
